import Mathlib

/-!
# Verification of the DFPlayer serial-protocol driver core

Shallow embedding of `src/dfplayer/dfplayer.py` (class `DFPlayer`): the
10-byte frame codec with checksum, the read-side prefix validation, the
relayed-message receive step with its ready/done flags, the command
retry/ACK state machine (`_exec_cmd`), the feedback phases of `send_cmd`
and `send_query`, and the notification dispatch with the track/advert
done-signal arbitration (`_handle_event`).

Bytes are modelled as `Nat`; Python's arbitrary-precision integers (used
for the two's-complement checksum) as `Int`, where Python's `x >> 8` and
`x & 0xFF` on a (possibly negative) int coincide with Lean's `Int` `/ 256`
and `% 256` (both floor/Euclidean for a positive divisor).

The asynchronous read loop is abstracted by an outcome stream
`f : Nat → RxOutcome`: `f i` is the i-th outcome the read loop relays to a
waiting caller (a timeout, a garbled-frame transmission error, a
device-reported error frame `0x40`, or a syntactically valid non-event
frame). Event frames (`0x3A`–`0x3F`) are dispatched inside the loop and
never relayed, so they do not appear in the stream. The initialization
guard (`_init`) is outside the modelled fragment: all commands are modelled
in the initialized state.
-/

set_option autoImplicit false

namespace DFPlayer

/-! ### Protocol constants (`_START_BIT`, ..., from the source) -/

def START_BIT : Nat := 0x7e

def END_BIT : Nat := 0xef

def VERSION : Nat := 0xff

def LENGTH : Nat := 6

def INFO_ERROR : Nat := 0x40

def INFO_ACK : Nat := 0x41

def EVENT_INSERT : Nat := 0x3a

def EVENT_EJECT : Nat := 0x3b

def EVENT_DONE_USB : Nat := 0x3c

def EVENT_DONE_SDCARD : Nat := 0x3d

def EVENT_DONE_FLASH : Nat := 0x3e

/-- `_EVENT_DONE = _EVENT_DONE_USB`, generic alias used as handler key. -/
def EVENT_DONE : Nat := EVENT_DONE_USB

def EVENT_READY : Nat := 0x3f

/-! ### Frame codec -/

/-- `DFPlayer._get_checksum`: negated sum of bytes 1 through 6
(Python `-result` on an unbounded int, hence `Int`). -/
def get_checksum (bytes : List Nat) : Int :=
  -((bytes.getD 1 0 : Int) + (bytes.getD 2 0 : Int) + (bytes.getD 3 0 : Int)
    + (bytes.getD 4 0 : Int) + (bytes.getD 5 0 : Int) + (bytes.getD 6 0 : Int))

/-- `DFPlayer._uint16_to_bytes`: `(value >> 8 & 0xFF, value & 0xFF)` with
Python int semantics (arithmetic shift, two's-complement bitwise and),
i.e. floor division and Euclidean remainder on `Int`. -/
def uint16_to_bytes (value : Int) : Nat × Nat :=
  ((value / 256 % 256).toNat, (value % 256).toNat)

/-- `DFPlayer._bytes_to_uint16`: `(bytes[0] << 8) + bytes[1]`. -/
def bytes_to_uint16 (bytes : Nat × Nat) : Nat :=
  (bytes.1 <<< 8) + bytes.2

/-- `DFPlayer._validate_read(stop)` over the read buffer: start/version/
length/end constants are checked only at byte positions below `stop`, the
checksum as soon as `stop > 8`. Errors are the transmission-error messages
raised by the source. -/
def validate_read (bytes : List Nat) (stop : Nat) : Except String Unit :=
  if (stop > 0 ∧ bytes.getD 0 0 ≠ START_BIT)
      ∨ (stop > 1 ∧ bytes.getD 1 0 ≠ VERSION)
      ∨ (stop > 2 ∧ bytes.getD 2 0 ≠ LENGTH)
      ∨ (stop > 9 ∧ bytes.getD 9 0 ≠ END_BIT) then
    Except.error "Corrupt frame received"
  else if stop > 8 ∧ (bytes.getD 7 0, bytes.getD 8 0) ≠ uint16_to_bytes (get_checksum bytes) then
    Except.error "Invalid checksum"
  else
    Except.ok ()

/-- The send buffer built by `DFPlayer._exec_cmd` for command byte `cmd`,
ACK-flag byte `ab` and parameter bytes `p1`, `p2`: checksum over bytes 1–6
(positions 7 and 8 still 0 when it is computed, exactly as in the source). -/
def frame_bytes (cmd ab p1 p2 : Nat) : List Nat :=
  let base : List Nat := [START_BIT, VERSION, LENGTH, cmd, ab, p1, p2, 0, 0, END_BIT]
  let ck := uint16_to_bytes (get_checksum base)
  [START_BIT, VERSION, LENGTH, cmd, ab, p1, p2, ck.1, ck.2, END_BIT]

/-- Frame as transmitted by `_exec_cmd`: `bytes[4] = use_ack` stores the
Python bool as `1`/`0`. -/
def build_frame (cmd : Nat) (use_ack : Bool) (p1 p2 : Nat) : List Nat :=
  frame_bytes cmd (if use_ack then 1 else 0) p1 p2

/-- `_exec_cmd` parameter resolution: `param2 is None` means `param1` is a
single uint16 split into two bytes, otherwise two independent bytes. -/
def resolve_params (param1 : Nat) (param2 : Option Nat) : Nat × Nat :=
  match param2 with
  | none => uint16_to_bytes (param1 : Int)
  | some p2 => (param1, p2)

/-! ### Errors and relayed outcomes -/

/-- The `DFPlayerError` hierarchy of the source. `internal` carries the
device error code and the mapped message (`DFPlayerInternalError`). -/
inductive Error where
  | initialization : Error
  | timeout : Error
  | transmission : Error
  | internal (code : Nat) (message : String) : Error
  | unexpectedMessage : Error
  deriving DecidableEq, Repr

/-- `_ERROR_CODE_TO_MESSAGE`, the device-error code table. -/
def error_code_to_message (code : Nat) : Option String :=
  match code with
  | 0x01 => some "Module is busy"
  | 0x02 => some "Device is in standby mode"
  | 0x03 => some "Received corrupt frame"
  | 0x04 => some "Invalid checksum"
  | 0x05 => some "File index out of bounds"
  | 0x06 => some "File not found"
  | 0x07 => some "Can only advertise while a track is playing"
  | _ => none

/-- `_read`: `message = _ERROR_CODE_TO_MESSAGE[code] if code in
_ERROR_CODE_TO_MESSAGE else "Unknown error"`. -/
def error_message (code : Nat) : String :=
  (error_code_to_message code).getD "Unknown error"

/-- One outcome the read loop can relay to a caller blocked in
`_receive_message`: the bounded wait timed out, `_read` raised a
`DFPlayerTransmissionError` (garbled frame), `_read` raised a
`DFPlayerInternalError` (frame with command byte `0x40` and error `code` in
byte 6), or a syntactically valid non-event frame with command byte `cmd`
and parameter bytes `p1`, `p2` was read. Event frames are consumed inside
`_read_loop` and never relayed. -/
inductive RxOutcome where
  | timeout : RxOutcome
  | transmission : RxOutcome
  | internal (code : Nat) : RxOutcome
  | frame (cmd p1 p2 : Nat) : RxOutcome
  deriving DecidableEq, Repr

/-- Result a caller gets out of one relayed outcome: errors exactly as
`_read` / `_receive_message` raise them, or the interesting bytes
`(bytes[3], bytes[5], bytes[6])` of the relayed read buffer. -/
def receive_result (o : RxOutcome) : Except Error (Nat × Nat × Nat) :=
  match o with
  | .timeout => Except.error Error.timeout
  | .transmission => Except.error Error.transmission
  | .internal code => Except.error (Error.internal code (error_message code))
  | .frame cmd p1 p2 => Except.ok (cmd, p1, p2)

/-- The read loop's relay flags: `_message_receive_ready` (a message is
relayed and not yet consumed) and `_message_receive_done` (no caller is
waiting). -/
structure RecvFlags where
  ready : Bool
  done : Bool
  deriving DecidableEq, Repr

/-- `DFPlayer._receive_message`: clear `done` (announce a waiter), wait for
the relay (outcome `o`), re-raise the loop's recorded error if any; the
`finally` block clears `ready` and sets `done` on every exit path,
including the timeout one. -/
def receive_message (o : RxOutcome) (s : RecvFlags) : RecvFlags × Except Error (Nat × Nat × Nat) :=
  let s1 : RecvFlags := { s with done := false }
  let result := receive_result o
  ({ s1 with ready := false, done := true }, result)

/-! ### The command state machine (`_exec_cmd`) -/

/-- The ACK-wait iterations of `_exec_cmd`'s
`for retries in reversed(range(self.retries + 1))` loop, entered with
`use_ack` true. Each iteration transmits `frame`, waits for one relayed
outcome, and on a `DFPlayerError` retries while `retries > 0`; a relayed
frame other than `_INFO_ACK` raises `DFPlayerUnexpectedMessageError`.
Returns the transmitted frames, the next stream index, the relay flags and
the result. -/
def exec_cmd_loop (frame : List Nat) (f : Nat → RxOutcome) :
    Nat → Nat → RecvFlags → List (List Nat) × Nat × RecvFlags × Except Error Unit
  | retries, idx, flags =>
    let (flags2, res) := receive_message (f idx) flags
    match res with
    | Except.error e =>
      match retries with
      | 0 => ([frame], idx + 1, flags2, Except.error e)
      | r + 1 =>
        let rest := exec_cmd_loop frame f r (idx + 1) flags2
        (frame :: rest.1, rest.2.1, rest.2.2.1, rest.2.2.2)
    | Except.ok res =>
      if res.1 ≠ INFO_ACK then ([frame], idx + 1, flags2, Except.error Error.unexpectedMessage)
      else ([frame], idx + 1, flags2, Except.ok ())

/-- `DFPlayer._exec_cmd` in the initialized state: build the frame from
`cmd`, the resolved parameters and the ACK flag, then transmit; with
`use_ack` false the loop `break`s right after the first transmission (no
wait, no retries), otherwise run the ACK-wait loop. -/
def exec_cmd (cmd : Nat) (param1 : Nat) (param2 : Option Nat) (use_ack : Bool) (retries : Nat)
    (f : Nat → RxOutcome) (idx : Nat) (flags : RecvFlags) :
    List (List Nat) × Nat × RecvFlags × Except Error Unit :=
  let p := resolve_params param1 param2
  let frame := build_frame cmd use_ack p.1 p.2
  if use_ack then exec_cmd_loop frame f retries idx flags
  else ([frame], idx, flags, Except.ok ())

/-! ### `send_cmd` and `send_query` -/

/-- The `wait_feedback` closure of `DFPlayer.send_cmd`: one more
`_receive_message` wait; a relayed message means
`DFPlayerUnexpectedMessageError`, a `DFPlayerTimeoutError` or
`DFPlayerTransmissionError` is swallowed (implicit success), every other
error (notably `DFPlayerInternalError`) propagates. -/
def wait_feedback (o : RxOutcome) (flags : RecvFlags) : RecvFlags × Except Error Unit :=
  let (flags2, res) := receive_message o flags
  match res with
  | Except.ok _ => (flags2, Except.error Error.unexpectedMessage)
  | Except.error Error.timeout => (flags2, Except.ok ())
  | Except.error Error.transmission => (flags2, Except.ok ())
  | Except.error e => (flags2, Except.error e)

/-- `DFPlayer.send_cmd` (without `await_busy`): `use_ack` is
`cmd not in self.skip_ack`; after `_exec_cmd` the feedback phase always
runs `wait_feedback`. -/
def send_cmd (cmd : Nat) (param1 : Nat) (param2 : Option Nat) (skip_ack : List Nat)
    (retries : Nat) (f : Nat → RxOutcome) (idx : Nat) (flags : RecvFlags) :
    List (List Nat) × Nat × RecvFlags × Except Error Unit :=
  let use_ack : Bool := !(skip_ack.contains cmd)
  let x := exec_cmd cmd param1 param2 use_ack retries f idx flags
  match x.2.2.2 with
  | Except.error e => (x.1, x.2.1, x.2.2.1, Except.error e)
  | Except.ok _ =>
    let fb := wait_feedback (f x.2.1) x.2.2.1
    (x.1, x.2.1 + 1, fb.1, fb.2)

/-- `DFPlayer.send_query`: transmit/ACK as `send_cmd`, then one
`_receive_message` wait whose errors propagate; a relayed frame whose
command byte fails `(0xf0 & res_cmd) == 0x40` raises
`DFPlayerUnexpectedMessageError`, otherwise bytes 5 and 6 are returned as
a big-endian uint16. -/
def send_query (cmd : Nat) (param1 : Nat) (param2 : Option Nat) (skip_ack : List Nat)
    (retries : Nat) (f : Nat → RxOutcome) (idx : Nat) (flags : RecvFlags) :
    List (List Nat) × Nat × RecvFlags × Except Error Nat :=
  let use_ack : Bool := !(skip_ack.contains cmd)
  let x := exec_cmd cmd param1 param2 use_ack retries f idx flags
  match x.2.2.2 with
  | Except.error e => (x.1, x.2.1, x.2.2.1, Except.error e)
  | Except.ok _ =>
    let (flags2, res) := receive_message (f x.2.1) x.2.2.1
    match res with
    | Except.error e => (x.1, x.2.1 + 1, flags2, Except.error e)
    | Except.ok r =>
      if 0xf0 &&& r.1 ≠ 0x40 then (x.1, x.2.1 + 1, flags2, Except.error Error.unexpectedMessage)
      else (x.1, x.2.1 + 1, flags2, Except.ok (bytes_to_uint16 (r.2.1, r.2.2)))

/-! ### Event dispatch and completion signals (`_handle_event`) -/

/-- Completion-signal / device state touched by `_handle_event`:
`track_done` and `advert_done` are the `is_set` states of the two
completion `Event`s (`true` = resolved), plus `_last_selected_device`. -/
structure EventState where
  track_done : Bool
  advert_done : Bool
  last_selected_device : Nat
  deriving DecidableEq, Repr

/-- `_EVENT_TO_DEVICE_FLAG` (only ever indexed with the three done
events). -/
def event_to_device_flag (event : Nat) : Nat :=
  if event = EVENT_DONE_USB then 0b1
  else if event = EVENT_DONE_SDCARD then 0b10
  else if event = EVENT_DONE_FLASH then 0b1000
  else 0

/-- `DFPlayer._handle_event` on the read buffer `bytes`: returns the new
state and, when the event is known, the handler key and arguments it
dispatches with (done events are normalized to `_EVENT_DONE` with
`(device, track_id)`; insert/eject/ready carry the device flags byte;
unknown events are dropped). The done branch performs the advert/track
arbitration: a resolved `advert_done` routes the notification to
`track_done`, an unresolved one resolves `advert_done` itself. -/
def handle_event (bytes : List Nat) (s : EventState) : EventState × Option (Nat × List Nat) :=
  let event := bytes.getD 3 0
  if event = EVENT_DONE_USB ∨ event = EVENT_DONE_SDCARD ∨ event = EVENT_DONE_FLASH then
    let device := event_to_device_flag event
    let track_id := bytes_to_uint16 (bytes.getD 5 0, bytes.getD 6 0)
    let s1 := { s with last_selected_device := device }
    let s2 :=
      if s1.advert_done then { s1 with track_done := true }
      else { s1 with advert_done := true }
    (s2, some (EVENT_DONE, [device, track_id]))
  else if event = EVENT_INSERT ∨ event = EVENT_EJECT ∨ event = EVENT_READY then
    (s, some (event, [bytes.getD 6 0]))
  else
    (s, none)

end DFPlayer

namespace DFPlayer

/-- `uint16_to_bytes ∘ (-·)` is injective on 16-bit sums: two distinct
byte-sums below `2 ^ 16` yield distinct checksum byte pairs. -/
theorem uint16_to_bytes_neg_inj {s t : Nat} (hs : s < 65536) (ht : t < 65536)
    (h : uint16_to_bytes (-(s : Int)) = uint16_to_bytes (-(t : Int))) : s = t := by
  simp only [uint16_to_bytes, Prod.mk.injEq] at h
  omega

/-- Contrapositive of `uint16_to_bytes_neg_inj`. -/
theorem checksum_sum_ne {s t : Nat} (hs : s < 65536) (ht : t < 65536) (hne : s ≠ t) :
    uint16_to_bytes (-(s : Int)) ≠ uint16_to_bytes (-(t : Int)) :=
  fun h => hne (uint16_to_bytes_neg_inj hs ht h)

/-- When every relayed outcome is an error, each of the `retries + 1`
iterations of the ACK loop transmits the frame once and consumes one
outcome, and the loop ends with the last error. -/
theorem exec_cmd_loop_all_errors (frame : List Nat) (f : Nat → RxOutcome) (e : Nat → Error)
    (hf : ∀ j, receive_result (f j) = Except.error (e j)) :
    ∀ (r idx : Nat) (flags : RecvFlags),
      exec_cmd_loop frame f r idx flags =
        (List.replicate (r + 1) frame, idx + r + 1, ⟨false, true⟩,
          Except.error (e (idx + r))) := by
  intro r
  induction r with
  | zero =>
    intro idx flags
    unfold exec_cmd_loop
    simp [receive_message, hf idx]
  | succ r ih =>
    intro idx flags
    unfold exec_cmd_loop
    simp only [receive_message, hf idx]
    rw [ih (idx + 1)]
    have h : idx + 1 + r = idx + (r + 1) := by omega
    simp [List.replicate_succ, h]

/-- C10: every caller wait for a relayed message, on every exit path
(success, relayed error, or timeout/cancellation), leaves the read loop's
waiting state cleared: after `_receive_message` the receive-done flag is
set and the receive-ready flag is cleared, whatever the relayed outcome
and whatever the flags were before. -/
theorem receive_message_clears_wait_state (o : RxOutcome) (s : RecvFlags) :
    (receive_message o s).1.done = true ∧ (receive_message o s).1.ready = false :=
  ⟨rfl, rfl⟩

/-- C5: for a done notification, if the advert-completion signal is
unresolved (an advert is active) the notification resolves it and leaves
the track-completion signal untouched (hence unresolved if it was); if the
advert signal is already resolved (no advert active) the notification
resolves the track-completion signal. -/
theorem handle_event_done_arbitration (bytes : List Nat) (s : EventState)
    (hdone : bytes.getD 3 0 = EVENT_DONE_USB ∨ bytes.getD 3 0 = EVENT_DONE_SDCARD ∨
      bytes.getD 3 0 = EVENT_DONE_FLASH) :
    (s.advert_done = false →
      (handle_event bytes s).1.advert_done = true ∧
      (handle_event bytes s).1.track_done = s.track_done) ∧
    (s.advert_done = true →
      (handle_event bytes s).1.track_done = true ∧
      (handle_event bytes s).1.advert_done = true) := by
  unfold handle_event
  rw [if_pos hdone]
  constructor
  · intro h; simp [h]
  · intro h; simp [h]

/-- C5 witness: an advert is active (advert signal unresolved) and a done
frame arrives; then with no advert active. -/
theorem handle_event_done_arbitration_witness :
    (((⟨false, false, 2⟩ : EventState).advert_done = false →
      (handle_event [126, 255, 6, 0x3c, 0, 0, 5, 0, 0, 239] ⟨false, false, 2⟩).1.advert_done = true ∧
      (handle_event [126, 255, 6, 0x3c, 0, 0, 5, 0, 0, 239] ⟨false, false, 2⟩).1.track_done =
        (⟨false, false, 2⟩ : EventState).track_done) ∧
    ((⟨false, false, 2⟩ : EventState).advert_done = true →
      (handle_event [126, 255, 6, 0x3c, 0, 0, 5, 0, 0, 239] ⟨false, false, 2⟩).1.track_done = true ∧
      (handle_event [126, 255, 6, 0x3c, 0, 0, 5, 0, 0, 239] ⟨false, false, 2⟩).1.advert_done = true)) ∧
    (((⟨false, true, 2⟩ : EventState).advert_done = false →
      (handle_event [126, 255, 6, 0x3c, 0, 0, 5, 0, 0, 239] ⟨false, true, 2⟩).1.advert_done = true ∧
      (handle_event [126, 255, 6, 0x3c, 0, 0, 5, 0, 0, 239] ⟨false, true, 2⟩).1.track_done =
        (⟨false, true, 2⟩ : EventState).track_done) ∧
    ((⟨false, true, 2⟩ : EventState).advert_done = true →
      (handle_event [126, 255, 6, 0x3c, 0, 0, 5, 0, 0, 239] ⟨false, true, 2⟩).1.track_done = true ∧
      (handle_event [126, 255, 6, 0x3c, 0, 0, 5, 0, 0, 239] ⟨false, true, 2⟩).1.advert_done = true)) :=
  ⟨handle_event_done_arbitration _ _ (Or.inl rfl),
   handle_event_done_arbitration _ _ (Or.inl rfl)⟩

/-- C2: for an ACK-requiring command with `retries = N` and a transport on
which every ACK wait fails with a timeout or a transmission error, the
command frame is transmitted exactly `N + 1` times (the same frame each
time) and the call then fails with the error of the last attempt. -/
theorem exec_cmd_retry_bound (cmd param1 : Nat) (param2 : Option Nat) (retries : Nat)
    (f : Nat → RxOutcome) (idx : Nat) (flags : RecvFlags)
    (hf : ∀ j, f j = RxOutcome.timeout ∨ f j = RxOutcome.transmission) :
    (exec_cmd cmd param1 param2 true retries f idx flags).1 =
      List.replicate (retries + 1)
        (build_frame cmd true (resolve_params param1 param2).1 (resolve_params param1 param2).2) ∧
    ∃ e, (exec_cmd cmd param1 param2 true retries f idx flags).2.2.2 = Except.error e ∧
      receive_result (f (idx + retries)) = Except.error e := by
  have hf' : ∀ j, receive_result (f j) =
      Except.error (match f j with | RxOutcome.timeout => Error.timeout | _ => Error.transmission) := by
    intro j
    rcases hf j with h | h <;> rw [h] <;> rfl
  unfold exec_cmd
  rw [if_pos rfl]
  rw [exec_cmd_loop_all_errors _ f _ hf' retries idx flags]
  exact ⟨rfl, _, rfl, hf' _⟩

/-- C2 witness: three transmissions with `retries = 2` on an
always-timing-out transport. -/
theorem exec_cmd_retry_bound_witness :
    (exec_cmd 0x06 15 none true 2 (fun _ => RxOutcome.timeout) 0 ⟨false, true⟩).1 =
      List.replicate 3
        (build_frame 0x06 true (resolve_params 15 none).1 (resolve_params 15 none).2) ∧
    ∃ e, (exec_cmd 0x06 15 none true 2 (fun _ => RxOutcome.timeout) 0 ⟨false, true⟩).2.2.2 =
        Except.error e ∧
      receive_result ((fun _ => RxOutcome.timeout) (0 + 2)) = Except.error e :=
  exec_cmd_retry_bound 0x06 15 none 2 (fun _ => RxOutcome.timeout) 0 ⟨false, true⟩
    (fun _ => Or.inl rfl)

/-- C4 counterexample: with one retry remaining, a device-reported error
frame (`0x40`, code `0x06`) during the ACK wait is retried — the command
is transmitted twice, so it is not surfaced immediately and a
retransmission does occur, contradicting the claim. -/
theorem exec_cmd_internal_error_retried_counterexample :
    (exec_cmd 0x03 0 none true 1 (fun _ => RxOutcome.internal 6) 0 ⟨false, true⟩).1.length = 2 ∧
    (exec_cmd 0x03 0 none true 1 (fun _ => RxOutcome.internal 6) 0 ⟨false, true⟩).2.2.2 =
      Except.error (Error.internal 6 "File not found") :=
  ⟨rfl, rfl⟩

/-- C4 amended: a device-reported error frame received during an ACK wait
is treated like any other `DFPlayerError`: the command is retransmitted
while retries remain, and the `InternalError` (mapped message plus raw
code) is surfaced only when retries are exhausted — after `retries + 1`
transmissions when every attempt yields it. -/
theorem exec_cmd_internal_error_retried (cmd param1 : Nat) (param2 : Option Nat)
    (code retries : Nat) (f : Nat → RxOutcome) (idx : Nat) (flags : RecvFlags)
    (hf : ∀ j, f j = RxOutcome.internal code) :
    (exec_cmd cmd param1 param2 true retries f idx flags).1.length = retries + 1 ∧
    (exec_cmd cmd param1 param2 true retries f idx flags).2.2.2 =
      Except.error (Error.internal code (error_message code)) := by
  have hf' : ∀ j, receive_result (f j) =
      Except.error (Error.internal code (error_message code)) := by
    intro j; rw [hf j]; rfl
  unfold exec_cmd
  rw [if_pos rfl]
  rw [exec_cmd_loop_all_errors _ f (fun _ => Error.internal code (error_message code)) hf'
    retries idx flags]
  simp

/-- C4 amended witness: always relaying device error `0x06` with two
retries gives three transmissions and the file-not-found error. -/
theorem exec_cmd_internal_error_retried_witness :
    (exec_cmd 0x03 0 none true 2 (fun _ => RxOutcome.internal 6) 0 ⟨false, true⟩).1.length = 2 + 1 ∧
    (exec_cmd 0x03 0 none true 2 (fun _ => RxOutcome.internal 6) 0 ⟨false, true⟩).2.2.2 =
      Except.error (Error.internal 6 (error_message 6)) :=
  exec_cmd_internal_error_retried 0x03 0 none 6 2 (fun _ => RxOutcome.internal 6) 0 ⟨false, true⟩
    (fun _ => rfl)

/-- Helper: the result of one feedback wait on each relayed outcome. -/
theorem wait_feedback_timeout (flags : RecvFlags) :
    (wait_feedback RxOutcome.timeout flags).2 = Except.ok () := rfl

theorem wait_feedback_transmission (flags : RecvFlags) :
    (wait_feedback RxOutcome.transmission flags).2 = Except.ok () := rfl

theorem wait_feedback_internal (c : Nat) (flags : RecvFlags) :
    (wait_feedback (RxOutcome.internal c) flags).2 =
      Except.error (Error.internal c (error_message c)) := rfl

theorem wait_feedback_frame (rc q1 q2 : Nat) (flags : RecvFlags) :
    (wait_feedback (RxOutcome.frame rc q1 q2) flags).2 =
      Except.error Error.unexpectedMessage := rfl

/-- Helper: once `_exec_cmd` succeeds for an ACK-requiring command, the
result of `send_cmd` is the result of the feedback wait on the next
relayed outcome. -/
theorem send_cmd_feedback (cmd param1 : Nat) (param2 : Option Nat) (skip_ack : List Nat)
    (retries : Nat) (f : Nat → RxOutcome) (idx : Nat) (flags : RecvFlags)
    (hskip : skip_ack.contains cmd = false)
    (hok : (exec_cmd cmd param1 param2 true retries f idx flags).2.2.2 = Except.ok ()) :
    (send_cmd cmd param1 param2 skip_ack retries f idx flags).2.2.2 =
      (wait_feedback (f (exec_cmd cmd param1 param2 true retries f idx flags).2.1)
        (exec_cmd cmd param1 param2 true retries f idx flags).2.2.1).2 := by
  unfold send_cmd
  simp only [hskip, Bool.not_false, hok]

/-- C1: after a successfully ACK'd command, a feedback-phase timeout or a
garbled (transmission-error) frame leaves `send_cmd` succeeding with no
error (implicit success); the feedback phase raises only for a
device-reported error frame (`InternalError`) or a syntactically valid
non-error frame (`UnexpectedMessageError`). -/
theorem send_cmd_feedback_implicit_success (cmd param1 : Nat) (param2 : Option Nat)
    (skip_ack : List Nat) (retries : Nat) (f : Nat → RxOutcome) (idx : Nat) (flags : RecvFlags)
    (hskip : skip_ack.contains cmd = false)
    (hok : (exec_cmd cmd param1 param2 true retries f idx flags).2.2.2 = Except.ok ()) :
    ((f (exec_cmd cmd param1 param2 true retries f idx flags).2.1 = RxOutcome.timeout ∨
      f (exec_cmd cmd param1 param2 true retries f idx flags).2.1 = RxOutcome.transmission) →
      (send_cmd cmd param1 param2 skip_ack retries f idx flags).2.2.2 = Except.ok ()) ∧
    (∀ c, f (exec_cmd cmd param1 param2 true retries f idx flags).2.1 = RxOutcome.internal c →
      (send_cmd cmd param1 param2 skip_ack retries f idx flags).2.2.2 =
        Except.error (Error.internal c (error_message c))) ∧
    (∀ rc q1 q2,
      f (exec_cmd cmd param1 param2 true retries f idx flags).2.1 = RxOutcome.frame rc q1 q2 →
      (send_cmd cmd param1 param2 skip_ack retries f idx flags).2.2.2 =
        Except.error Error.unexpectedMessage) := by
  refine ⟨?_, ?_, ?_⟩
  · rintro (h | h) <;>
      rw [send_cmd_feedback cmd param1 param2 skip_ack retries f idx flags hskip hok, h] <;> rfl
  · intro c h
    rw [send_cmd_feedback cmd param1 param2 skip_ack retries f idx flags hskip hok, h]
    rfl
  · intro rc q1 q2 h
    rw [send_cmd_feedback cmd param1 param2 skip_ack retries f idx flags hskip hok, h]
    rfl

/-- C1 witness: command `0x03` is ACK'd on its only attempt and the
feedback phase times out, yielding implicit success (the internal/frame
conjuncts hold vacuously on this stream). -/
theorem send_cmd_feedback_implicit_success_witness :
    (((fun n => if n = 0 then RxOutcome.frame 0x41 0 0 else RxOutcome.timeout)
        (exec_cmd 0x03 0 none true 0
          (fun n => if n = 0 then RxOutcome.frame 0x41 0 0 else RxOutcome.timeout)
          0 ⟨false, true⟩).2.1 = RxOutcome.timeout ∨
      (fun n => if n = 0 then RxOutcome.frame 0x41 0 0 else RxOutcome.timeout)
        (exec_cmd 0x03 0 none true 0
          (fun n => if n = 0 then RxOutcome.frame 0x41 0 0 else RxOutcome.timeout)
          0 ⟨false, true⟩).2.1 = RxOutcome.transmission) →
      (send_cmd 0x03 0 none [] 0
        (fun n => if n = 0 then RxOutcome.frame 0x41 0 0 else RxOutcome.timeout)
        0 ⟨false, true⟩).2.2.2 = Except.ok ()) ∧
    (∀ c, (fun n => if n = 0 then RxOutcome.frame 0x41 0 0 else RxOutcome.timeout)
        (exec_cmd 0x03 0 none true 0
          (fun n => if n = 0 then RxOutcome.frame 0x41 0 0 else RxOutcome.timeout)
          0 ⟨false, true⟩).2.1 = RxOutcome.internal c →
      (send_cmd 0x03 0 none [] 0
        (fun n => if n = 0 then RxOutcome.frame 0x41 0 0 else RxOutcome.timeout)
        0 ⟨false, true⟩).2.2.2 = Except.error (Error.internal c (error_message c))) ∧
    (∀ rc q1 q2, (fun n => if n = 0 then RxOutcome.frame 0x41 0 0 else RxOutcome.timeout)
        (exec_cmd 0x03 0 none true 0
          (fun n => if n = 0 then RxOutcome.frame 0x41 0 0 else RxOutcome.timeout)
          0 ⟨false, true⟩).2.1 = RxOutcome.frame rc q1 q2 →
      (send_cmd 0x03 0 none [] 0
        (fun n => if n = 0 then RxOutcome.frame 0x41 0 0 else RxOutcome.timeout)
        0 ⟨false, true⟩).2.2.2 = Except.error Error.unexpectedMessage) :=
  send_cmd_feedback_implicit_success 0x03 0 none [] 0
    (fun n => if n = 0 then RxOutcome.frame 0x41 0 0 else RxOutcome.timeout)
    0 ⟨false, true⟩ rfl rfl

/-- C9: a feedback frame with command byte `0x40` and error code `0x06`
after a successfully ACK'd command makes the `send_cmd` call fail with the
"File not found" `InternalError` carrying raw code `0x06`; and any error
code outside the message table produces an `InternalError` with the
unknown-error message while preserving the raw code. -/
theorem send_cmd_device_error_propagation (cmd param1 : Nat) (param2 : Option Nat)
    (skip_ack : List Nat) (retries : Nat) (f : Nat → RxOutcome) (idx : Nat) (flags : RecvFlags)
    (c : Nat) (hskip : skip_ack.contains cmd = false)
    (hok : (exec_cmd cmd param1 param2 true retries f idx flags).2.2.2 = Except.ok ())
    (hfb : f (exec_cmd cmd param1 param2 true retries f idx flags).2.1 = RxOutcome.internal 0x06)
    (hc : error_code_to_message c = none) :
    (send_cmd cmd param1 param2 skip_ack retries f idx flags).2.2.2 =
      Except.error (Error.internal 0x06 "File not found") ∧
    receive_result (RxOutcome.internal c) =
      Except.error (Error.internal c "Unknown error") := by
  constructor
  · rw [send_cmd_feedback cmd param1 param2 skip_ack retries f idx flags hskip hok, hfb]
    rfl
  · simp [receive_result, error_message, hc]

/-- C9 witness: command ACK'd on the first attempt, feedback relays device
error `0x06`; unmapped code `0x08`. -/
theorem send_cmd_device_error_propagation_witness :
    (send_cmd 0x03 0 none [] 0
      (fun n => if n = 0 then RxOutcome.frame 0x41 0 0 else RxOutcome.internal 0x06)
      0 ⟨false, true⟩).2.2.2 = Except.error (Error.internal 0x06 "File not found") ∧
    receive_result (RxOutcome.internal 0x08) =
      Except.error (Error.internal 0x08 "Unknown error") :=
  send_cmd_device_error_propagation 0x03 0 none [] 0
    (fun n => if n = 0 then RxOutcome.frame 0x41 0 0 else RxOutcome.internal 0x06)
    0 ⟨false, true⟩ 0x08 rfl rfl rfl rfl

/-- C3 counterexample: the claim says a response frame whose command byte
differs from the query's raises `UnexpectedMessageError`; but querying
`0x43` (volume) while the device replies with command byte `0x47 ≠ 0x43`
returns the decoded value `30` with no error, because `send_query` only
checks the high nibble (`0xf0 & res_cmd == 0x40`). -/
theorem send_query_wrong_echo_accepted_counterexample :
    (send_query 0x43 0 none [0x43] 5 (fun _ => RxOutcome.frame 0x47 0 30) 0
      ⟨false, true⟩).2.2.2 = Except.ok 30 ∧ (0x47 : Nat) ≠ 0x43 :=
  ⟨rfl, by decide⟩

/-- C3 amended: after a successful transmit/ACK phase, `send_query`'s
feedback phase raises `UnexpectedMessageError` exactly when the relayed
frame's command byte is outside the `0x40`-class (`0xf0 & res_cmd ≠ 0x40`);
any relayed frame with high nibble `0x4` — in particular one whose command
byte equals the query's — is accepted, its two parameter bytes returned as
a big-endian 16-bit result. -/
theorem send_query_response_class (cmd param1 : Nat) (param2 : Option Nat)
    (skip_ack : List Nat) (retries : Nat) (f : Nat → RxOutcome) (idx : Nat) (flags : RecvFlags)
    (rc q1 q2 : Nat)
    (hok : (exec_cmd cmd param1 param2 (!(skip_ack.contains cmd)) retries f idx flags).2.2.2 =
      Except.ok ())
    (hframe :
      f (exec_cmd cmd param1 param2 (!(skip_ack.contains cmd)) retries f idx flags).2.1 =
        RxOutcome.frame rc q1 q2) :
    (0xf0 &&& rc ≠ 0x40 →
      (send_query cmd param1 param2 skip_ack retries f idx flags).2.2.2 =
        Except.error Error.unexpectedMessage) ∧
    (0xf0 &&& rc = 0x40 →
      (send_query cmd param1 param2 skip_ack retries f idx flags).2.2.2 =
        Except.ok (bytes_to_uint16 (q1, q2))) := by
  unfold send_query
  simp only [hok, hframe, receive_message, receive_result]
  constructor
  · intro h
    rw [if_pos h]
  · intro h
    rw [if_neg (by simp [h])]

/-- C3 amended witness: the spec's own scenario — query `0x43`, device
replies with command byte `0x43` and parameter bytes `0x00`, `0x1E`; the
query (in the default `skip_ack` set) returns `30`. -/
theorem send_query_response_class_witness :
    (0xf0 &&& 0x43 ≠ 0x40 →
      (send_query 0x43 0 none [0x43] 5 (fun _ => RxOutcome.frame 0x43 0x00 0x1E) 0
        ⟨false, true⟩).2.2.2 = Except.error Error.unexpectedMessage) ∧
    (0xf0 &&& 0x43 = 0x40 →
      (send_query 0x43 0 none [0x43] 5 (fun _ => RxOutcome.frame 0x43 0x00 0x1E) 0
        ⟨false, true⟩).2.2.2 = Except.ok (bytes_to_uint16 (0x00, 0x1E))) :=
  send_query_response_class 0x43 0 none [0x43] 5 (fun _ => RxOutcome.frame 0x43 0x00 0x1E) 0
    ⟨false, true⟩ 0x43 0x00 0x1E rfl rfl

/-- C8 counterexample: the claim says a command in the `skip_ack` set is
complete once transmitted, with no wait; but `send_cmd 0x16` (stop) with
`0x16 ∈ skip_ack` still performs a feedback-phase wait (one outcome is
consumed: the final stream index is `1`, not `0`) and that wait can even
fail the call with `UnexpectedMessageError` when a valid non-error frame
arrives. -/
theorem send_cmd_skip_ack_waits_counterexample :
    (send_cmd 0x16 0 none [0x16] 5 (fun _ => RxOutcome.frame 0x42 0 0) 0
      ⟨false, true⟩).2.2.2 = Except.error Error.unexpectedMessage ∧
    (send_cmd 0x16 0 none [0x16] 5 (fun _ => RxOutcome.frame 0x42 0 0) 0
      ⟨false, true⟩).2.1 = 1 :=
  ⟨rfl, rfl⟩

/-- C8 amended: for a command whose byte is in `skip_ack`, `_exec_cmd`
transmits the frame exactly once with no ACK wait and no retries and
returns success; but the `send_cmd` call is not complete at transmission —
it still performs exactly one feedback-phase wait (with the full command
timeout), whose outcome decides the call's result. -/
theorem send_cmd_skip_ack_single_transmit (cmd param1 : Nat) (param2 : Option Nat)
    (skip_ack : List Nat) (retries : Nat) (f : Nat → RxOutcome) (idx : Nat) (flags : RecvFlags)
    (hskip : skip_ack.contains cmd = true) :
    exec_cmd cmd param1 param2 false retries f idx flags =
      ([build_frame cmd false (resolve_params param1 param2).1 (resolve_params param1 param2).2],
        idx, flags, Except.ok ()) ∧
    (send_cmd cmd param1 param2 skip_ack retries f idx flags).1.length = 1 ∧
    (send_cmd cmd param1 param2 skip_ack retries f idx flags).2.1 = idx + 1 ∧
    (send_cmd cmd param1 param2 skip_ack retries f idx flags).2.2.2 =
      (wait_feedback (f idx) flags).2 := by
  refine ⟨rfl, ?_⟩
  unfold send_cmd
  simp only [hskip, Bool.not_true]
  exact ⟨rfl, rfl, rfl⟩

/-- C8 amended witness: stop command `0x16` in `skip_ack`; the feedback
wait times out, which is implicit success. -/
theorem send_cmd_skip_ack_single_transmit_witness :
    exec_cmd 0x16 0 none false 5 (fun _ => RxOutcome.timeout) 0 ⟨false, true⟩ =
      ([build_frame 0x16 false (resolve_params 0 none).1 (resolve_params 0 none).2],
        0, ⟨false, true⟩, Except.ok ()) ∧
    (send_cmd 0x16 0 none [0x16] 5 (fun _ => RxOutcome.timeout) 0 ⟨false, true⟩).1.length = 1 ∧
    (send_cmd 0x16 0 none [0x16] 5 (fun _ => RxOutcome.timeout) 0 ⟨false, true⟩).2.1 = 0 + 1 ∧
    (send_cmd 0x16 0 none [0x16] 5 (fun _ => RxOutcome.timeout) 0 ⟨false, true⟩).2.2.2 =
      (wait_feedback ((fun _ => RxOutcome.timeout) 0) (⟨false, true⟩ : RecvFlags)).2 :=
  send_cmd_skip_ack_single_transmit 0x16 0 none [0x16] 5 (fun _ => RxOutcome.timeout) 0
    ⟨false, true⟩ rfl

/-- C7 counterexample: the claim says the checksum is checked only once
all 10 bytes are present; but with only 9 bytes received, a prefix whose
start/version/length bytes are all correct (and whose end byte is not yet
available) is already rejected with the checksum transmission error,
because `_validate_read` tests the checksum as soon as `stop > 8`. -/
theorem validate_read_checksum_at_nine_counterexample :
    validate_read [0x7e, 0xff, 6, 0, 0, 0, 0, 0, 0, 0] 9 = Except.error "Invalid checksum" ∧
    [0x7e, 0xff, 6, 0, 0, 0, 0, 0, 0, 0].getD 0 0 = START_BIT ∧
    [0x7e, 0xff, 6, 0, 0, 0, 0, 0, 0, 0].getD 1 0 = VERSION ∧
    [0x7e, 0xff, 6, 0, 0, 0, 0, 0, 0, 0].getD 2 0 = LENGTH ∧
    (9 : Nat) < 10 :=
  ⟨rfl, rfl, rfl, rfl, by decide⟩

/-- C7 amended: prefix validation checks the start/version/length/end
constants only at the byte positions already available, and the checksum
as soon as the first nine bytes (which include both checksum bytes) are
available — not only once all 10 are present; a prefix violating none of
the so-applicable constraints raises no error, and any other prefix raises
one of the two transmission errors. -/
theorem validate_read_prefix_characterization (bytes : List Nat) (stop : Nat) :
    (validate_read bytes stop = Except.ok () ↔
      ((stop > 0 → bytes.getD 0 0 = START_BIT) ∧
       (stop > 1 → bytes.getD 1 0 = VERSION) ∧
       (stop > 2 → bytes.getD 2 0 = LENGTH) ∧
       (stop > 9 → bytes.getD 9 0 = END_BIT) ∧
       (stop > 8 → (bytes.getD 7 0, bytes.getD 8 0) = uint16_to_bytes (get_checksum bytes)))) ∧
    (validate_read bytes stop = Except.ok () ∨
      validate_read bytes stop = Except.error "Corrupt frame received" ∨
      validate_read bytes stop = Except.error "Invalid checksum") := by
  constructor
  · constructor
    · intro h
      unfold validate_read at h
      split at h
      · exact absurd h (by simp)
      · split at h
        · exact absurd h (by simp)
        · next h1 h2 =>
          push_neg at h1 h2
          exact ⟨h1.1, h1.2.1, h1.2.2.1, h1.2.2.2, h2⟩
    · rintro ⟨r0, r1, r2, r9, rck⟩
      unfold validate_read
      rw [if_neg, if_neg]
      · rintro ⟨h8, hne⟩
        exact hne (rck h8)
      · rintro (⟨h, hne⟩ | ⟨h, hne⟩ | ⟨h, hne⟩ | ⟨h, hne⟩)
        exacts [hne (r0 h), hne (r1 h), hne (r2 h), hne (r9 h)]
  · unfold validate_read
    split
    · exact Or.inr (Or.inl rfl)
    · split
      · exact Or.inr (Or.inr rfl)
      · exact Or.inl rfl

/-- Helper: a full (10-byte) buffer whose constant bytes and checksum all
match passes validation. -/
theorem validate_read_ok_of (l : List Nat)
    (h0 : l.getD 0 0 = START_BIT) (h1 : l.getD 1 0 = VERSION) (h2 : l.getD 2 0 = LENGTH)
    (h9 : l.getD 9 0 = END_BIT)
    (hck : (l.getD 7 0, l.getD 8 0) = uint16_to_bytes (get_checksum l)) :
    validate_read l 10 = Except.ok () := by
  unfold validate_read
  rw [if_neg, if_neg]
  · rintro ⟨_, hne⟩
    exact hne hck
  · rintro (⟨_, hne⟩ | ⟨_, hne⟩ | ⟨_, hne⟩ | ⟨_, hne⟩)
    exacts [hne h0, hne h1, hne h2, hne h9]

/-- Helper: a violated constant-byte constraint at an available position
yields the corrupt-frame error. -/
theorem validate_read_error_corrupt (l : List Nat) (stop : Nat)
    (h : (stop > 0 ∧ l.getD 0 0 ≠ START_BIT) ∨ (stop > 1 ∧ l.getD 1 0 ≠ VERSION)
      ∨ (stop > 2 ∧ l.getD 2 0 ≠ LENGTH) ∨ (stop > 9 ∧ l.getD 9 0 ≠ END_BIT)) :
    validate_read l stop = Except.error "Corrupt frame received" := by
  unfold validate_read
  rw [if_pos h]

/-- Helper: with the constant bytes fine but a checksum mismatch, a full
buffer yields the invalid-checksum error. -/
theorem validate_read_error_checksum (l : List Nat)
    (h0 : l.getD 0 0 = START_BIT) (h1 : l.getD 1 0 = VERSION) (h2 : l.getD 2 0 = LENGTH)
    (h9 : l.getD 9 0 = END_BIT)
    (hck : (l.getD 7 0, l.getD 8 0) ≠ uint16_to_bytes (get_checksum l)) :
    validate_read l 10 = Except.error "Invalid checksum" := by
  unfold validate_read
  rw [if_neg, if_pos ⟨by norm_num, hck⟩]
  rintro (⟨_, hne⟩ | ⟨_, hne⟩ | ⟨_, hne⟩ | ⟨_, hne⟩)
  exacts [hne h0, hne h1, hne h2, hne h9]

/-- Helper: the checksum of any 10-byte buffer is the negated sum of its
bytes 1 through 6. -/
theorem get_checksum_eval (b0 b1 b2 b3 b4 b5 b6 b7 b8 b9 : Nat) :
    get_checksum [b0, b1, b2, b3, b4, b5, b6, b7, b8, b9] =
      -((b1 + b2 + b3 + b4 + b5 + b6 : Nat) : Int) := by
  show -((b1 : Int) + (b2 : Int) + (b3 : Int) + (b4 : Int) + (b5 : Int) + (b6 : Int)) = _
  push_cast
  ring

/-- Helper: the explicit form of the encoded send buffer. -/
theorem frame_bytes_eq (cmd ab p1 p2 : Nat) :
    frame_bytes cmd ab p1 p2 =
      [START_BIT, VERSION, LENGTH, cmd, ab, p1, p2,
        (uint16_to_bytes (-((VERSION + LENGTH + cmd + ab + p1 + p2 : Nat) : Int))).1,
        (uint16_to_bytes (-((VERSION + LENGTH + cmd + ab + p1 + p2 : Nat) : Int))).2,
        END_BIT] := by
  show [START_BIT, VERSION, LENGTH, cmd, ab, p1, p2,
      (uint16_to_bytes (get_checksum
        [START_BIT, VERSION, LENGTH, cmd, ab, p1, p2, 0, 0, END_BIT])).1,
      (uint16_to_bytes (get_checksum
        [START_BIT, VERSION, LENGTH, cmd, ab, p1, p2, 0, 0, END_BIT])).2,
      END_BIT] = _
  rw [get_checksum_eval]

/-- Helper: every encoded send buffer passes full validation. -/
theorem frame_bytes_valid (cmd ab p1 p2 : Nat) :
    validate_read (frame_bytes cmd ab p1 p2) 10 = Except.ok () := by
  rw [frame_bytes_eq]
  apply validate_read_ok_of
  · rfl
  · rfl
  · rfl
  · rfl
  · rw [get_checksum_eval]
    rfl

/-- Helper: changing any single byte of an encoded send buffer to a
different byte value makes full validation fail. -/
theorem frame_bytes_corrupt (cmd ab p1 p2 : Nat)
    (hcmd : cmd < 256) (hab : ab < 256) (hp1 : p1 < 256) (hp2 : p2 < 256)
    (i : Nat) (hi : i < 10) (v : Nat) (hv : v < 256)
    (hne : v ≠ (frame_bytes cmd ab p1 p2).getD i 0) :
    ∃ m, validate_read ((frame_bytes cmd ab p1 p2).set i v) 10 = Except.error m := by
  rw [frame_bytes_eq] at hne ⊢
  set X := uint16_to_bytes (-((VERSION + LENGTH + cmd + ab + p1 + p2 : Nat) : Int)) with hX
  have hsum : VERSION + LENGTH + cmd + ab + p1 + p2 < 65536 := by
    simp only [VERSION, LENGTH]
    omega
  interval_cases i
  · exact ⟨_, validate_read_error_corrupt _ _ (Or.inl ⟨by norm_num, hne⟩)⟩
  · exact ⟨_, validate_read_error_corrupt _ _ (Or.inr (Or.inl ⟨by norm_num, hne⟩))⟩
  · exact ⟨_, validate_read_error_corrupt _ _ (Or.inr (Or.inr (Or.inl ⟨by norm_num, hne⟩)))⟩
  · have hne' : v ≠ cmd := hne
    refine ⟨_, validate_read_error_checksum _ rfl rfl rfl rfl ?_⟩
    rw [show ([START_BIT, VERSION, LENGTH, cmd, ab, p1, p2, X.1, X.2, END_BIT] : List Nat).set 3 v
        = [START_BIT, VERSION, LENGTH, v, ab, p1, p2, X.1, X.2, END_BIT] from rfl]
    rw [get_checksum_eval]
    show X ≠ _
    rw [hX]
    exact checksum_sum_ne hsum (by simp only [VERSION, LENGTH]; omega) (by omega)
  · have hne' : v ≠ ab := hne
    refine ⟨_, validate_read_error_checksum _ rfl rfl rfl rfl ?_⟩
    rw [show ([START_BIT, VERSION, LENGTH, cmd, ab, p1, p2, X.1, X.2, END_BIT] : List Nat).set 4 v
        = [START_BIT, VERSION, LENGTH, cmd, v, p1, p2, X.1, X.2, END_BIT] from rfl]
    rw [get_checksum_eval]
    show X ≠ _
    rw [hX]
    exact checksum_sum_ne hsum (by simp only [VERSION, LENGTH]; omega) (by omega)
  · have hne' : v ≠ p1 := hne
    refine ⟨_, validate_read_error_checksum _ rfl rfl rfl rfl ?_⟩
    rw [show ([START_BIT, VERSION, LENGTH, cmd, ab, p1, p2, X.1, X.2, END_BIT] : List Nat).set 5 v
        = [START_BIT, VERSION, LENGTH, cmd, ab, v, p2, X.1, X.2, END_BIT] from rfl]
    rw [get_checksum_eval]
    show X ≠ _
    rw [hX]
    exact checksum_sum_ne hsum (by simp only [VERSION, LENGTH]; omega) (by omega)
  · have hne' : v ≠ p2 := hne
    refine ⟨_, validate_read_error_checksum _ rfl rfl rfl rfl ?_⟩
    rw [show ([START_BIT, VERSION, LENGTH, cmd, ab, p1, p2, X.1, X.2, END_BIT] : List Nat).set 6 v
        = [START_BIT, VERSION, LENGTH, cmd, ab, p1, v, X.1, X.2, END_BIT] from rfl]
    rw [get_checksum_eval]
    show X ≠ _
    rw [hX]
    exact checksum_sum_ne hsum (by simp only [VERSION, LENGTH]; omega) (by omega)
  · have hne' : v ≠ X.1 := hne
    refine ⟨_, validate_read_error_checksum _ rfl rfl rfl rfl ?_⟩
    rw [show ([START_BIT, VERSION, LENGTH, cmd, ab, p1, p2, X.1, X.2, END_BIT] : List Nat).set 7 v
        = [START_BIT, VERSION, LENGTH, cmd, ab, p1, p2, v, X.2, END_BIT] from rfl]
    rw [get_checksum_eval]
    show ((v, X.2) : Nat × Nat) ≠ X
    exact fun h => hne' (congrArg Prod.fst h)
  · have hne' : v ≠ X.2 := hne
    refine ⟨_, validate_read_error_checksum _ rfl rfl rfl rfl ?_⟩
    rw [show ([START_BIT, VERSION, LENGTH, cmd, ab, p1, p2, X.1, X.2, END_BIT] : List Nat).set 8 v
        = [START_BIT, VERSION, LENGTH, cmd, ab, p1, p2, X.1, v, END_BIT] from rfl]
    rw [get_checksum_eval]
    show ((X.1, v) : Nat × Nat) ≠ X
    exact fun h => hne' (congrArg Prod.snd h)
  · exact ⟨_, validate_read_error_corrupt _ _ (Or.inr (Or.inr (Or.inr ⟨by norm_num, hne⟩)))⟩

/-- C6: for every command byte, ACK flag and byte-parameter combination,
the encoded 10-byte frame passes full validation without error, its
checksum bytes 7 and 8 are the big-endian two's-complement negation
modulo `2 ^ 16` of the sum of bytes 1 through 6, and changing any single
byte of the encoded frame to a different byte value makes full validation
fail. -/
theorem encode_validate_roundtrip (cmd p1 p2 : Nat) (ack : Bool)
    (hcmd : cmd < 256) (hp1 : p1 < 256) (hp2 : p2 < 256) :
    validate_read (build_frame cmd ack p1 p2) 10 = Except.ok () ∧
    ((build_frame cmd ack p1 p2).getD 7 0 =
        (65536 - (VERSION + LENGTH + cmd + (if ack then 1 else 0) + p1 + p2)) / 256 ∧
      (build_frame cmd ack p1 p2).getD 8 0 =
        (65536 - (VERSION + LENGTH + cmd + (if ack then 1 else 0) + p1 + p2)) % 256) ∧
    ∀ i, i < 10 → ∀ v, v < 256 → v ≠ (build_frame cmd ack p1 p2).getD i 0 →
      ∃ m, validate_read ((build_frame cmd ack p1 p2).set i v) 10 = Except.error m := by
  have hab : (if ack then 1 else 0) < 256 := by cases ack <;> norm_num
  unfold build_frame
  refine ⟨frame_bytes_valid _ _ _ _, ⟨?_, ?_⟩,
    fun i hi v hv hne => frame_bytes_corrupt _ _ _ _ hcmd hab hp1 hp2 i hi v hv hne⟩
  · rw [frame_bytes_eq]
    show ((-((VERSION + LENGTH + cmd + (if ack then 1 else 0) + p1 + p2 : Nat) : Int))
        / 256 % 256).toNat = _
    simp only [VERSION, LENGTH] at *
    omega
  · rw [frame_bytes_eq]
    show ((-((VERSION + LENGTH + cmd + (if ack then 1 else 0) + p1 + p2 : Nat) : Int))
        % 256).toNat = _
    simp only [VERSION, LENGTH] at *
    omega

/-- C6 witness: the play command `0x03` with ACK requested and the 16-bit
track id `30` split into bytes `0`, `30`. -/
theorem encode_validate_roundtrip_witness :
    validate_read (build_frame 0x03 true 0 30) 10 = Except.ok () ∧
    ((build_frame 0x03 true 0 30).getD 7 0 =
        (65536 - (VERSION + LENGTH + 0x03 + (if true then 1 else 0) + 0 + 30)) / 256 ∧
      (build_frame 0x03 true 0 30).getD 8 0 =
        (65536 - (VERSION + LENGTH + 0x03 + (if true then 1 else 0) + 0 + 30)) % 256) ∧
    ∀ i, i < 10 → ∀ v, v < 256 → v ≠ (build_frame 0x03 true 0 30).getD i 0 →
      ∃ m, validate_read ((build_frame 0x03 true 0 30).set i v) 10 = Except.error m :=
  encode_validate_roundtrip 0x03 0 30 true (by decide) (by decide) (by decide)

end DFPlayer
